import Mathlib

/-!
Shallow embedding of the maas-flow reconciliation engine
(repository ciena/cord-maas-automation).

The embedding follows the Go sources:
  - state machine, actions, filters and per-cycle processing: state.go
    (Transitions, findAction, ProcessNode, buildHostNameFilter,
    buildZoneFilter, matchedZoneFilter, matchedHostnameFilter, ProcessAll);
  - the polling driver and snapshot fetch: maas-flow.go
    (fetchNodes, main).

External collaborators (the gomaasapi client and the node accessors from
the node source file, which is not part of the sources here) are modelled
as explicit data: a MaasNode carries the values its accessors would
return, and a MaasClient maps each remote POST the actions can issue to
the result the MAAS server would report. Compiled regular expressions
are modelled as abstract matchers of type String → Bool, the form in
which matchedZoneFilter and matchedHostnameFilter consume them.

Side effects are made observable as data: each dispatched action is
recorded as a DispatchEvent, and each log warning of the fetch path as a
list entry, so that theorems can speak about what a cycle dispatches.
-/

namespace MaasFlow

instance {ε α : Type} [DecidableEq ε] [DecidableEq α] : DecidableEq (Except ε α) := fun a b =>
  match a, b with
  | Except.ok x, Except.ok y =>
    if h : x = y then isTrue (by rw [h]) else isFalse (by intro hc; cases hc; exact h rfl)
  | Except.error x, Except.error y =>
    if h : x = y then isTrue (by rw [h]) else isFalse (by intro hc; cases hc; exact h rfl)
  | Except.ok _, Except.error _ => isFalse (by intro hc; cases hc)
  | Except.error _, Except.ok _ => isFalse (by intro hc; cases hc)

/-- Modelled from the spec: the node accessors (Hostname, Zone, ID,
GetInteger of the substatus field) live in the node source file, which is
missing from the sources; a machine is modelled as the snapshot values
those accessors return. GetInteger is fallible, hence Except. -/
structure MaasNode where
  hostname : String
  zone : String
  id : String
  substatus : Except String Nat
deriving DecidableEq, Repr

/-- Model of the external MAAS client: the result of each remote POST an
action can issue (start and commission keyed by node id, acquire keyed by
hostname), and the result of listing all nodes. -/
structure MaasClient where
  startResult : String → Except String Unit
  acquireResult : String → Except String Unit
  commissionResult : String → Except String Unit
  listResult : Except String (List MaasNode)

/-- The seven action values of state.go, as names. In Go each is a
function from client and node to an error; applyAction below gives that
function and remoteCalls lists the POST requests it issues. -/
inductive Action where
  | Done
  | Deploy
  | Aquire
  | Comission
  | Wait
  | Fail
  | AdminState
deriving DecidableEq, Repr

/-- Result the Go action function returns: Done, Wait, Fail and
AdminState only log and return nil; Deploy posts start on the node id;
Aquire posts acquire with the hostname parameter; Comission posts
commission on the node id, each returning the posts error if any. -/
def applyAction (a : Action) (client : MaasClient) (node : MaasNode) : Except String Unit :=
  match a with
  | Action.Done => Except.ok ()
  | Action.Deploy => client.startResult node.id
  | Action.Aquire => client.acquireResult node.hostname
  | Action.Comission => client.commissionResult node.id
  | Action.Wait => Except.ok ()
  | Action.Fail => Except.ok ()
  | Action.AdminState => Except.ok ()

/-- The remote POST requests (operation name, key) an action issues
against the MAAS server; the side effect footprint of the action. -/
def remoteCalls (a : Action) (node : MaasNode) : List (String × String) :=
  match a with
  | Action.Deploy => [("start", node.id)]
  | Action.Aquire => [("acquire", node.hostname)]
  | Action.Comission => [("commission", node.id)]
  | _ => []

/-- Transition record of state.go: target status, current status, action. -/
structure Transition where
  Target : String
  Current : String
  Using : Action
deriving DecidableEq, Repr

/-- The hand compiled transition table of state.go, verbatim, including
the misspelled current status Reserverd in the fifth entry. -/
def Transitions : List Transition := [
  ⟨"Deployed", "Deployed", Action.Done⟩,
  ⟨"Deployed", "Ready", Action.Aquire⟩,
  ⟨"Deployed", "Allocated", Action.Deploy⟩,
  ⟨"Deployed", "Retired", Action.AdminState⟩,
  ⟨"Deployed", "Reserverd", Action.AdminState⟩,
  ⟨"Deployed", "Releasing", Action.Wait⟩,
  ⟨"Deployed", "DiskErasing", Action.Wait⟩,
  ⟨"Deployed", "Deploying", Action.Wait⟩,
  ⟨"Deployed", "Commissioning", Action.Wait⟩,
  ⟨"Deployed", "Missing", Action.Fail⟩,
  ⟨"Deployed", "FailedReleasing", Action.Fail⟩,
  ⟨"Deployed", "FailedDiskErasing", Action.Fail⟩,
  ⟨"Deployed", "FailedDeployment", Action.Fail⟩,
  ⟨"Deployed", "Broken", Action.Fail⟩,
  ⟨"Deployed", "FailedCommissioning", Action.Fail⟩,
  ⟨"Deployed", "New", Action.Comission⟩]

/-- Single quote character, used to reproduce the Go error message text. -/
def squote : String := String.singleton (Char.ofNat 39)

/-- Error message of findAction for an unmatched current status. -/
def noTransitionMsg (current : String) : String :=
  "Could not find transition from current state " ++ squote ++ current ++ squote

/-- findAction of state.go: scan Transitions in order and return the
action of the first record whose Current field equals the current
status; the target argument is never consulted by the loop body. -/
def findAction (target : String) (current : String) : Except String Action :=
  match Transitions.find? (fun t => t.Current == current) with
  | some t => Except.ok t.Using
  | none => Except.error (noTransitionMsg current)

/-- Modelled from the spec: MaasNodeStatus and its String method live in
the node source file, which is missing from the sources. The spec
enumerates the sixteen status names; the numeric encoding follows the
order of that enumeration. -/
def MaasNodeStatusString (substatus : Nat) : String :=
  match substatus with
  | 0 => "New"
  | 1 => "Commissioning"
  | 2 => "FailedCommissioning"
  | 3 => "Ready"
  | 4 => "Allocated"
  | 5 => "Deploying"
  | 6 => "Deployed"
  | 7 => "Releasing"
  | 8 => "FailedReleasing"
  | 9 => "DiskErasing"
  | 10 => "FailedDiskErasing"
  | 11 => "Broken"
  | 12 => "Retired"
  | 13 => "Reserved"
  | 14 => "Missing"
  | 15 => "FailedDeployment"
  | _ => "UNKNOWN"

/-- One dispatched action: the node and the action launched for it. -/
structure DispatchEvent where
  node : MaasNode
  action : Action
deriving DecidableEq, Repr

/-- ProcessNode of state.go. It reads the substatus integer (returning
the read error if any), looks up the action for the status string
(returning the lookup error if any), then launches the action in a
goroutine and returns nil: the launch is recorded as a DispatchEvent and
the result of the launched action itself is discarded by the Go code. -/
def ProcessNode (client : MaasClient) (node : MaasNode) :
    Except String Unit × List DispatchEvent :=
  match node.substatus with
  | Except.error e => (Except.error e, [])
  | Except.ok n =>
    match findAction "" (MaasNodeStatusString n) with
    | Except.error e => (Except.error e, [])
    | Except.ok a => (Except.ok (), [⟨node, a⟩])

/-- Include and exclude pattern lists under one key of the filter
specification, each optional as in the JSON shape; a pattern is a
compiled matcher, the form matchedZoneFilter consumes. -/
structure FilterPatterns where
  includePatterns : Option (List (String → Bool))
  excludePatterns : Option (List (String → Bool))

/-- Filter specification shape of the configuration: hosts and zones
keys, each optional as in the JSON map the Go code inspects. -/
structure FilterSpec where
  hosts : Option FilterPatterns
  zones : Option FilterPatterns

/-- buildHostNameFilter of state.go: missing hosts key or missing
include key yields the empty matcher list, otherwise the compiled
include patterns (compilation of each pattern string is modelled by the
matcher itself, so the fatal malformed pattern path does not arise). -/
def buildHostNameFilter (filter : FilterSpec) : List (String → Bool) :=
  match filter.hosts with
  | none => []
  | some hosts =>
    match hosts.includePatterns with
    | none => []
    | some values => values

/-- buildZoneFilter of state.go: same shape as buildHostNameFilter, on
the zones key. -/
def buildZoneFilter (filter : FilterSpec) : List (String → Bool) :=
  match filter.zones with
  | none => []
  | some zones =>
    match zones.includePatterns with
    | none => []
    | some values => values

/-- matchedZoneFilter of state.go: true when some matcher in the include
list matches the zone. -/
def matchedZoneFilter (includeList : List (String → Bool)) (zone : String) : Bool :=
  includeList.any (fun e => e zone)

/-- matchedHostnameFilter of state.go: true when some matcher in the
include list matches the hostname. -/
def matchedHostnameFilter (includeList : List (String → Bool)) (hostname : String) : Bool :=
  includeList.any (fun e => e hostname)

/-- The guard of the loop body of ProcessAll: hostname passes the host
include matchers and zone passes the zone include matchers. -/
def inScope (filter : FilterSpec) (node : MaasNode) : Bool :=
  matchedHostnameFilter (buildHostNameFilter filter) node.hostname &&
  matchedZoneFilter (buildZoneFilter filter) node.zone

/-- Outcome of one iteration of the loop of ProcessAll for one node: the
error slot written for the node (none encodes the Go nil, also for a
skipped node whose slot keeps its zero value) and the dispatches made. -/
def nodeOutcome (client : MaasClient) (filter : FilterSpec) (node : MaasNode) :
    Option String × List DispatchEvent :=
  if inScope filter node then
    match ProcessNode client node with
    | (Except.error e, ds) => (some e, ds)
    | (Except.ok _, ds) => (none, ds)
  else (none, [])

/-- ProcessAll of state.go: build both include matcher lists, then for
each node either skip it (filter miss, slot stays nil) or run
ProcessNode and write its result into the error slice entry of that
node. The first component is the returned error slice, the second the
dispatches of the whole cycle in order. -/
def ProcessAll (client : MaasClient) (nodes : List MaasNode) (filter : FilterSpec) :
    List (Option String) × List DispatchEvent :=
  (nodes.map (fun n => (nodeOutcome client filter n).1),
   nodes.flatMap (fun n => (nodeOutcome client filter n).2))

/-- Modelled from the spec: ProcessingOptions is declared in the node
source file, which is missing from the sources; per the spec it bundles
preview mode, verbosity, the always rename flag, the filter
specification and the MAC to hostname mapping. -/
structure ProcessingOptions where
  Preview : Bool
  Verbose : Bool
  AlwaysRename : Bool
  Filter : FilterSpec
  Mappings : List (String × String)

/-- fetchNodes of maas-flow.go: ask the client for the node list; each
failing step logs exactly one warning and returns the error with a nil
list. The successive remote steps (CallGet, GetArray, per object
conversion) are collapsed into the single listResult of the client
model; the failure path still logs exactly one warning. -/
def fetchNodes (client : MaasClient) : Except String (List MaasNode) × List String :=
  match client.listResult with
  | Except.error e =>
    (Except.error e, ["unable to get the list of all nodes: " ++ e])
  | Except.ok nodes => (Except.ok nodes, [])

/-- One pass of main of maas-flow.go: fetch the snapshot, ignoring the
returned error as main does (a failed fetch leaves a nil node list), and
run ProcessAll over it with the configured filter specification.
Returns the error slice, the dispatches and the warnings logged. -/
def runOnce (client : MaasClient) (options : ProcessingOptions) :
    List (Option String) × List DispatchEvent × List String :=
  let fetched := fetchNodes client
  let nodes := match fetched.1 with
    | Except.ok ns => ns
    | Except.error _ => []
  let processed := ProcessAll client nodes options.Filter
  (processed.1, processed.2, fetched.2)

/-- Pass structure of main of maas-flow.go: one immediate pass always
runs; the ticker loop runs only when preview is not set, adding one pass
per ticker firing observed before termination. -/
def mainPassCount (preview : Bool) (tickerFirings : Nat) : Nat :=
  if preview then 1 else 1 + tickerFirings

/-! Supporting definitions for the theorems. -/

/-- The sixteen lifecycle status names enumerated by the spec. -/
def statusList : List String := ["New", "Commissioning", "FailedCommissioning", "Ready",
  "Allocated", "Deploying", "Deployed", "Releasing", "FailedReleasing", "DiskErasing",
  "FailedDiskErasing", "Broken", "Retired", "Reserved", "Missing", "FailedDeployment"]

/-- Number of transition table entries whose Current field equals s. -/
def countCurrent (s : String) : Nat :=
  (Transitions.filter (fun t => t.Current == s)).length

/-- Specification side reading of the lookup contract: the first record
of the list whose Current field equals the given status. -/
def firstCurrentMatch : List Transition → String → Option Transition
  | [], _ => none
  | t :: rest, c => if t.Current == c then some t else firstCurrentMatch rest c

/-- Filter specification with the exclude lists dropped; two
specifications differ only in their exclude lists exactly when this
erasure identifies them. -/
def eraseExcludes (f : FilterSpec) : FilterSpec :=
  { hosts := f.hosts.map (fun h =>
      { includePatterns := h.includePatterns, excludePatterns := none }),
    zones := f.zones.map (fun z =>
      { includePatterns := z.includePatterns, excludePatterns := none }) }

/-- Two successive invocations of ProcessAll on the same snapshot and
filter: the concatenated dispatch trace. -/
def twoRuns (client : MaasClient) (nodes : List MaasNode) (filter : FilterSpec) :
    List DispatchEvent :=
  (ProcessAll client nodes filter).2 ++ (ProcessAll client nodes filter).2

/-- Matcher accepting every string, the compiled form of the default
include pattern of the configuration. -/
def truePat : String → Bool := fun _ => true

/-- Matcher rejecting every string, used as a concrete exclude pattern. -/
def exPat : String → Bool := fun _ => false

/-- Filter accepting every hostname and every zone. -/
def allFilter : FilterSpec :=
  { hosts := some { includePatterns := some [truePat], excludePatterns := some [] },
    zones := some { includePatterns := some [truePat], excludePatterns := some [] } }

/-- Filter whose host include list is empty while zones accept all. -/
def emptyHostFilter : FilterSpec :=
  { hosts := some { includePatterns := some [], excludePatterns := none },
    zones := some { includePatterns := some [truePat], excludePatterns := none } }

/-- Filter like allFilter but with no exclude lists present. -/
def filterWithoutExcludes : FilterSpec :=
  { hosts := some { includePatterns := some [truePat], excludePatterns := some [] },
    zones := some { includePatterns := some [truePat], excludePatterns := none } }

/-- Filter like filterWithoutExcludes with populated exclude lists. -/
def filterWithExcludes : FilterSpec :=
  { hosts := some { includePatterns := some [truePat], excludePatterns := some [exPat] },
    zones := some { includePatterns := some [truePat], excludePatterns := some [exPat] } }

/-- Machine whose substatus decodes to the Ready status. -/
def readyNode : MaasNode := ⟨"node-1", "default", "n1", Except.ok 3⟩

/-- Machine whose substatus decodes to the Reserved status. -/
def reservedNode : MaasNode := ⟨"node-2", "default", "n2", Except.ok 13⟩

/-- Client on which every remote call succeeds and the node listing
returns readyNode. -/
def previewClient : MaasClient :=
  { startResult := fun _ => Except.ok (), acquireResult := fun _ => Except.ok (),
    commissionResult := fun _ => Except.ok (), listResult := Except.ok [readyNode] }

/-- Client on which the acquire call fails while everything else
succeeds. -/
def failingClient : MaasClient :=
  { startResult := fun _ => Except.ok (), acquireResult := fun _ => Except.error "boom",
    commissionResult := fun _ => Except.ok (), listResult := Except.ok [] }

/-- Client whose node listing fails. -/
def downClient : MaasClient :=
  { startResult := fun _ => Except.ok (), acquireResult := fun _ => Except.ok (),
    commissionResult := fun _ => Except.ok (), listResult := Except.error "down" }

/-- Options with the preview flag set and the accept all filter. -/
def previewOptions : ProcessingOptions :=
  { Preview := true, Verbose := false, AlwaysRename := true,
    Filter := allFilter, Mappings := [] }

/-! Helper lemmas shared between claims. -/

theorem find?_eq_firstCurrentMatch (l : List Transition) (c : String) :
    l.find? (fun t => t.Current == c) = firstCurrentMatch l c := by
  induction l with
  | nil => rfl
  | cons t rest ih =>
    rw [List.find?_cons, firstCurrentMatch]
    cases h : (t.Current == c) <;> simp [h, ih]

theorem processNode_dispatch_ok (client : MaasClient) (node : MaasNode)
    (ev : DispatchEvent) (ds : List DispatchEvent)
    (h : (ProcessNode client node).2 = ev :: ds) :
    (ProcessNode client node).1 = Except.ok () := by
  cases hs : node.substatus with
  | error e => simp [ProcessNode, hs] at h
  | ok n =>
    cases hf : findAction "" (MaasNodeStatusString n) with
    | error e => simp [ProcessNode, hs, hf] at h
    | ok a => simp [ProcessNode, hs, hf]

/-! Claim theorems. -/

/-- C1: the claim states that every status of the enumerated set has
exactly one transition table entry with a matching Current field, so
lookup succeeds for each of them. On the table as written this fails
for exactly one status: the fifth entry misspells Reserved as
Reserverd, so the Reserved status has zero matching entries and
findAction fails on it, while every other enumerated status has exactly
one entry. -/
theorem c1_reserved_status_missing_from_table :
    statusList.filter (fun s => countCurrent s != 1) = ["Reserved"]
  ∧ countCurrent "Reserved" = 0
  ∧ countCurrent "Reserverd" = 1
  ∧ findAction "" "Reserved" = Except.error (noTransitionMsg "Reserved") := by decide

/-- C2: with the preview flag set, main runs exactly the one immediate
pass and never enters the ticker loop; but that pass still dispatches
side effecting actions: on a snapshot holding one Ready machine in
scope, the preview pass dispatches Aquire, whose footprint is a remote
acquire POST. The pass count part of the claim holds; the no side
effects part is violated, contradicting the configuration field
documentation that preview only reports what would be done. -/
theorem c2_preview_pass_still_dispatches_side_effects :
    mainPassCount true 7 = 1
  ∧ previewOptions.Preview = true
  ∧ (runOnce previewClient previewOptions).2.1 = [⟨readyNode, Action.Aquire⟩]
  ∧ remoteCalls Action.Aquire readyNode = [("acquire", "node-1")] := by decide

/-- C3 counterexample: a Ready machine in scope on a client whose
acquire call fails. The action is dispatched and reports failure, yet
the error slice entry of the machine returned by ProcessAll is nil, not
that error: the goroutine result is discarded. -/
theorem c3_counterexample_action_failure_discarded :
    inScope allFilter readyNode = true
  ∧ (ProcessNode failingClient readyNode).2 = [⟨readyNode, Action.Aquire⟩]
  ∧ applyAction Action.Aquire failingClient readyNode = Except.error "boom"
  ∧ (ProcessAll failingClient [readyNode] allFilter).1 = [none]
  ∧ (ProcessAll failingClient [readyNode] allFilter).1 ≠ [some "boom"] := by decide

/-- C3 amended: for every machine whose dispatched action reports
failure, the failure is neither logged by the dispatcher nor collected:
the action is launched in a goroutine and its result discarded, so the
error slice entry of ProcessAll for that machine is nil regardless of
the action result, and the slice stays pointwise, leaving other
machines unaffected. -/
theorem c3_amended_action_failures_never_collected
    (client : MaasClient) (nodes : List MaasNode) (filter : FilterSpec)
    (i : Nat) (node : MaasNode) (a : Action) (e : String)
    (hnode : nodes[i]? = some node)
    (hscope : inScope filter node = true)
    (hdisp : (ProcessNode client node).2 = [⟨node, a⟩])
    (hfail : applyAction a client node = Except.error e) :
    (ProcessAll client nodes filter).1[i]? = some none
  ∧ (ProcessAll client nodes filter).1
      = nodes.map (fun n => (nodeOutcome client filter n).1) := by
  refine ⟨?_, rfl⟩
  have hok : (ProcessNode client node).1 = Except.ok () :=
    processNode_dispatch_ok client node ⟨node, a⟩ [] hdisp
  have hpn : ProcessNode client node = (Except.ok (), [⟨node, a⟩]) := by
    rcases hp : ProcessNode client node with ⟨x, y⟩
    rw [hp] at hok hdisp
    simp at hok hdisp
    rw [hok, hdisp]
  show (nodes.map (fun n => (nodeOutcome client filter n).1))[i]? = some none
  rw [List.getElem?_map, hnode]
  simp [nodeOutcome, hscope, hpn]

/-- C3 amended witness at a concrete input: the Ready machine whose
acquire fails gets a nil entry and the slice is the pointwise map. -/
theorem c3_amended_witness :
    (ProcessAll failingClient [readyNode] allFilter).1[0]? = some none
  ∧ (ProcessAll failingClient [readyNode] allFilter).1
      = [readyNode].map (fun n => (nodeOutcome failingClient allFilter n).1) :=
  c3_amended_action_failures_never_collected failingClient [readyNode] allFilter 0 readyNode
    Action.Aquire "boom" (by decide) (by decide) (by decide) (by decide)

/-- C4: transition lookup returns the action of the first table record
whose Current field equals the status, and the result never depends on
the target argument: for any two targets and the same current status
the result agrees, and it equals the first matching record reading of
the table with the no route error when nothing matches. -/
theorem c4_lookup_ignores_target_first_match (target1 target2 current : String) :
    findAction target1 current = findAction target2 current
  ∧ findAction target1 current =
      (match firstCurrentMatch Transitions current with
       | some t => Except.ok t.Using
       | none => Except.error (noTransitionMsg current)) := by
  refine ⟨rfl, ?_⟩
  rw [findAction, find?_eq_firstCurrentMatch]

/-- C5: a machine is in scope exactly when its hostname matches at
least one compiled hostname include pattern and its zone matches at
least one compiled zone include pattern; an empty include list on
either side puts every machine out of scope, and an out of scope
machine is skipped by ProcessAll with no dispatch and a nil error
entry. -/
theorem c5_scope_iff_include_matches (filter : FilterSpec) (node : MaasNode)
    (client : MaasClient) :
    (inScope filter node = true ↔
      ((∃ p ∈ buildHostNameFilter filter, p node.hostname = true) ∧
       (∃ q ∈ buildZoneFilter filter, q node.zone = true)))
  ∧ ((buildHostNameFilter filter = [] ∨ buildZoneFilter filter = []) →
      inScope filter node = false)
  ∧ (inScope filter node = false →
      (ProcessAll client [node] filter).2 = []
    ∧ (ProcessAll client [node] filter).1 = [none]) := by
  refine ⟨?_, ?_, ?_⟩
  · rw [inScope, matchedHostnameFilter, matchedZoneFilter]
    simp [List.any_eq_true]
  · intro h
    rcases h with h | h <;>
      simp [inScope, matchedHostnameFilter, matchedZoneFilter, h]
  · intro h
    constructor <;> simp [ProcessAll, nodeOutcome, h]

/-- C5 witness at a concrete input: with an empty host include list the
Ready machine is out of scope and the single node cycle dispatches
nothing. -/
theorem c5_witness :
    inScope emptyHostFilter readyNode = false
  ∧ (ProcessAll previewClient [readyNode] emptyHostFilter).2 = [] := by
  have h := c5_scope_iff_include_matches emptyHostFilter readyNode previewClient
  have hout : inScope emptyHostFilter readyNode = false := h.2.1 (Or.inl rfl)
  exact ⟨hout, (h.2.2 hout).1⟩

/-- C6: a status with no table record whose Current field equals it
makes findAction return the could not find transition error rather
than panic; a cycle records that error in the error slice entry of the
machine carrying that status, and the slice stays the pointwise map
over the nodes, so the remaining machines are still processed. -/
theorem c6_no_route_error_isolated
    (target current : String) (client : MaasClient) (filter : FilterSpec)
    (nodes : List MaasNode) (i : Nat) (node : MaasNode) (k : Nat)
    (habsent : ∀ t ∈ Transitions, t.Current ≠ current)
    (hnode : nodes[i]? = some node)
    (hsub : node.substatus = Except.ok k)
    (hstat : MaasNodeStatusString k = current)
    (hscope : inScope filter node = true) :
    findAction target current = Except.error (noTransitionMsg current)
  ∧ (ProcessAll client nodes filter).1[i]? = some (some (noTransitionMsg current))
  ∧ (ProcessAll client nodes filter).1
      = nodes.map (fun n => (nodeOutcome client filter n).1) := by
  have hfind : ∀ t : String, findAction t current = Except.error (noTransitionMsg current) := by
    intro t
    rw [findAction]
    have hnone : Transitions.find? (fun tr => tr.Current == current) = none := by
      rw [List.find?_eq_none]
      intro tr htr
      simpa using habsent tr htr
    rw [hnone]
  refine ⟨hfind target, ?_, rfl⟩
  show (nodes.map (fun n => (nodeOutcome client filter n).1))[i]?
      = some (some (noTransitionMsg current))
  rw [List.getElem?_map, hnode]
  simp [nodeOutcome, hscope, ProcessNode, hsub, hstat, hfind ""]

/-- C6 witness at a concrete input: the Reserved status has no table
entry; in a two machine cycle the Reserved machine gets the no route
error recorded while the slice stays the pointwise map over both
machines. -/
theorem c6_witness :
    findAction "" "Reserved" = Except.error (noTransitionMsg "Reserved")
  ∧ (ProcessAll previewClient [reservedNode, readyNode] allFilter).1[0]?
      = some (some (noTransitionMsg "Reserved"))
  ∧ (ProcessAll previewClient [reservedNode, readyNode] allFilter).1
      = [reservedNode, readyNode].map (fun n => (nodeOutcome previewClient allFilter n).1) :=
  c6_no_route_error_isolated "" "Reserved" previewClient allFilter
    [reservedNode, readyNode] 0 reservedNode 13
    (by decide) (by decide) (by decide) (by decide) (by decide)

/-- C7: when the snapshot fetch fails, the pass dispatches no action
for any machine, returns an empty error slice, and logs exactly one
cycle level warning for the failure. -/
theorem c7_fetch_failure_aborts_cycle (client : MaasClient)
    (options : ProcessingOptions) (e : String)
    (hfail : client.listResult = Except.error e) :
    (runOnce client options).2.1 = []
  ∧ (runOnce client options).1 = []
  ∧ (runOnce client options).2.2 = ["unable to get the list of all nodes: " ++ e]
  ∧ (runOnce client options).2.2.length = 1 := by
  refine ⟨?_, ?_, ?_, ?_⟩ <;> simp [runOnce, fetchNodes, hfail, ProcessAll]

/-- C7 witness at a concrete input: on the client whose listing fails
the pass dispatches nothing and logs exactly one warning. -/
theorem c7_witness :
    (runOnce downClient previewOptions).2.1 = []
  ∧ (runOnce downClient previewOptions).1 = []
  ∧ (runOnce downClient previewOptions).2.2
      = ["unable to get the list of all nodes: " ++ "down"]
  ∧ (runOnce downClient previewOptions).2.2.length = 1 :=
  c7_fetch_failure_aborts_cycle downClient previewOptions "down" (by decide)

theorem buildHostNameFilter_eraseExcludes (f : FilterSpec) :
    buildHostNameFilter (eraseExcludes f) = buildHostNameFilter f := by
  cases hf : f.hosts with
  | none => simp [buildHostNameFilter, eraseExcludes, hf]
  | some hp =>
    cases hi : hp.includePatterns <;>
      simp [buildHostNameFilter, eraseExcludes, hf, hi]

theorem buildZoneFilter_eraseExcludes (f : FilterSpec) :
    buildZoneFilter (eraseExcludes f) = buildZoneFilter f := by
  cases hf : f.zones with
  | none => simp [buildZoneFilter, eraseExcludes, hf]
  | some zp =>
    cases hi : zp.includePatterns <;>
      simp [buildZoneFilter, eraseExcludes, hf, hi]

/-- C8: the exclude pattern lists never influence the outcome: two
filter specifications that agree after erasing their exclude lists give
every machine the same error slice entry and the same dispatches, since
the build functions read only the include lists. -/
theorem c8_excludes_do_not_affect_processing
    (f1 f2 : FilterSpec) (client : MaasClient) (nodes : List MaasNode)
    (h : eraseExcludes f1 = eraseExcludes f2) :
    ProcessAll client nodes f1 = ProcessAll client nodes f2 := by
  have hH : buildHostNameFilter f1 = buildHostNameFilter f2 := by
    rw [← buildHostNameFilter_eraseExcludes f1, ← buildHostNameFilter_eraseExcludes f2, h]
  have hZ : buildZoneFilter f1 = buildZoneFilter f2 := by
    rw [← buildZoneFilter_eraseExcludes f1, ← buildZoneFilter_eraseExcludes f2, h]
  have hout : ∀ n, nodeOutcome client f1 n = nodeOutcome client f2 n := by
    intro n
    rw [nodeOutcome, nodeOutcome, inScope, inScope, hH, hZ]
  have h1 : (fun n => (nodeOutcome client f1 n).1) = (fun n => (nodeOutcome client f2 n).1) :=
    funext (fun n => by rw [hout n])
  have h2 : (fun n => (nodeOutcome client f1 n).2) = (fun n => (nodeOutcome client f2 n).2) :=
    funext (fun n => by rw [hout n])
  rw [ProcessAll, ProcessAll, h1, h2]

/-- C8 witness at a concrete input: two filters identical up to their
exclude lists give the same ProcessAll result on the Ready machine. -/
theorem c8_witness :
    ProcessAll previewClient [readyNode] filterWithoutExcludes
      = ProcessAll previewClient [readyNode] filterWithExcludes :=
  c8_excludes_do_not_affect_processing filterWithoutExcludes filterWithExcludes
    previewClient [readyNode] rfl

/-- C9: invoking ProcessAll twice on an identical snapshot and filter
dispatches exactly the same actions for exactly the same machines both
times and deduplicates nothing: the combined trace is the single run
trace twice, and every dispatch event occurs with doubled
multiplicity. -/
theorem c9_two_identical_runs_duplicate_dispatches
    (client : MaasClient) (nodes : List MaasNode) (filter : FilterSpec) :
    twoRuns client nodes filter
      = (ProcessAll client nodes filter).2 ++ (ProcessAll client nodes filter).2
  ∧ ∀ ev : DispatchEvent,
      (twoRuns client nodes filter).count ev
        = 2 * ((ProcessAll client nodes filter).2.count ev) := by
  refine ⟨rfl, fun ev => ?_⟩
  rw [twoRuns, List.count_append, two_mul]

/-- C10: ProcessAll returns an error slice exactly as long as the node
list; the entry of a machine out of scope is nil, and so is the entry of
a machine whose ProcessNode call returned nil. -/
theorem c10_error_slice_shape
    (client : MaasClient) (nodes : List MaasNode) (filter : FilterSpec) :
    (ProcessAll client nodes filter).1.length = nodes.length
  ∧ ∀ (i : Nat) (node : MaasNode), nodes[i]? = some node →
      ((inScope filter node = false →
          (ProcessAll client nodes filter).1[i]? = some none)
     ∧ ((ProcessNode client node).1 = Except.ok () →
          (ProcessAll client nodes filter).1[i]? = some none)) := by
  refine ⟨by simp [ProcessAll], ?_⟩
  intro i node hnode
  have hentry : (ProcessAll client nodes filter).1[i]?
      = some ((nodeOutcome client filter node).1) := by
    show (nodes.map (fun n => (nodeOutcome client filter n).1))[i]?
        = some ((nodeOutcome client filter node).1)
    rw [List.getElem?_map, hnode]
    rfl
  constructor
  · intro hout
    rw [hentry]
    simp [nodeOutcome, hout]
  · intro hok
    rw [hentry]
    rcases hp : ProcessNode client node with ⟨x, y⟩
    rw [hp] at hok
    simp at hok
    simp [nodeOutcome, hp, hok]
    split <;> rfl

/-- C10 witness at a concrete input: a one machine cycle returns a one
entry slice, and the entry is nil both for the processed Ready machine
and for the same machine when filtered out. -/
theorem c10_witness :
    (ProcessAll previewClient [readyNode] allFilter).1.length = [readyNode].length
  ∧ (ProcessAll previewClient [readyNode] allFilter).1[0]? = some none
  ∧ (ProcessAll previewClient [readyNode] emptyHostFilter).1[0]? = some none := by
  refine ⟨(c10_error_slice_shape previewClient [readyNode] allFilter).1, ?_, ?_⟩
  · exact ((c10_error_slice_shape previewClient [readyNode] allFilter).2 0 readyNode
      (by decide)).2 (by decide)
  · exact ((c10_error_slice_shape previewClient [readyNode] emptyHostFilter).2 0 readyNode
      (by decide)).1 (by decide)

end MaasFlow
